import Mathlib

/-!
Verification of the job-description generation pipeline (`core/services.py`,
class `JobGeneratorService`) against its natural-language specification.

The Python code is shallowly embedded: Python `int` becomes `Int`, Python
strings become `String` (operated on through their `List Char`
representation), JSON values become the inductive `Json`, raised exceptions
become the `Exc` error type threaded through `Except`, and the single
outbound HTTP call is abstracted by its observable outcome `CallResult`
(timeout / HTTP status error / connection error / bad content type /
other failure / parsed 2xx JSON body).

Unicode approximations, stated once here: the embedding of Python's `\w`
regex class uses ASCII word characters, `\s` and `str.strip()` use the
ASCII/Latin-1/common-Unicode whitespace set below, and `re.IGNORECASE`
is modelled by ASCII case folding.  All concrete inputs used in theorems
below are ASCII, where these coincide with Python exactly.
-/

/-- Python exceptions relevant to `services.py`, as an error type.
`securityError` / `valueError` carry the exception message.  `timeoutExc`,
`httpStatusExc`, `connectExc` stand for `httpx.TimeoutException`,
`httpx.HTTPStatusError` (with response status code) and `httpx.ConnectError`;
`otherExc` stands for any other `Exception` (TypeError, KeyError,
AttributeError, IndexError, ...).  All of these are `Exception` subclasses
in Python: the code's own handler ordering (`except SecurityError: raise`
before `except Exception`) shows the custom classes subclass `Exception`. -/
inductive Exc where
  | securityError (msg : String)
  | valueError (msg : String)
  | timeoutExc
  | httpStatusExc (status : Nat)
  | connectExc
  | otherExc
deriving DecidableEq, Repr

/-- JSON values, as produced by Python's `json.loads`.  Numbers keep their
validated source lexeme (including the non-standard `NaN` / `Infinity` /
`-Infinity` that Python accepts), which is all the pipeline ever inspects
(only truthiness).  Objects keep their field list in source order; lookup
is last-occurrence-wins, matching how Python's dict is built from
duplicate keys. -/
inductive Json where
  | null
  | bool (b : Bool)
  | num (lex : String)
  | str (s : String)
  | arr (elems : List Json)
  | obj (fields : List (String × Json))

/-- `_categorize_experience` (services.py lines 38-47), verbatim branch
structure: negative years raise `ValueError` (a plain builtin, not the
imported `ValidationError`), then `years <= 3` / `years <= 7` / else. -/
def categorize_experience (years : Int) : Except Exc String :=
  if years < 0 then .error (.valueError "Years of experience cannot be negative")
  else if years ≤ 3 then .ok "Entry"
  else if years ≤ 7 then .ok "Mid"
  else .ok "Senior"

/-- C4: the Input Classifier is total and deterministic on non-negative
years, with inclusive lower bounds: 0-3 yields Entry, 4-7 yields Mid,
8+ yields Senior (and it returns successfully, never an error, there). -/
theorem categorize_experience_tiers (y : Int) :
    (0 ≤ y → y ≤ 3 → categorize_experience y = .ok "Entry") ∧
    (4 ≤ y → y ≤ 7 → categorize_experience y = .ok "Mid") ∧
    (8 ≤ y → categorize_experience y = .ok "Senior") := by
  unfold categorize_experience
  refine ⟨fun h0 h3 => ?_, fun h4 h7 => ?_, fun h8 => ?_⟩
  · rw [if_neg (by omega), if_pos (by omega)]
  · rw [if_neg (by omega), if_neg (by omega), if_pos (by omega)]
  · rw [if_neg (by omega), if_neg (by omega), if_neg (by omega)]

theorem categorize_experience_tiers_witness :
    categorize_experience 0 = .ok "Entry" ∧ categorize_experience 3 = .ok "Entry" ∧
    categorize_experience 4 = .ok "Mid" ∧ categorize_experience 7 = .ok "Mid" ∧
    categorize_experience 8 = .ok "Senior" :=
  ⟨(categorize_experience_tiers 0).1 (by decide) (by decide),
   (categorize_experience_tiers 3).1 (by decide) (by decide),
   (categorize_experience_tiers 4).2.1 (by decide) (by decide),
   (categorize_experience_tiers 7).2.1 (by decide) (by decide),
   (categorize_experience_tiers 8).2.2 (by decide)⟩

/-! ## String utilities shared by the embedding -/

/-- ASCII case folding of a character code, modelling `re.IGNORECASE`
matching of the ASCII pattern literals in `_sanitize_text`. -/
def lcVal (c : Char) : Nat :=
  if 65 ≤ c.toNat ∧ c.toNat ≤ 90 then c.toNat + 32 else c.toNat

/-- Case-insensitive character match. -/
def ciEq (a b : Char) : Bool := lcVal a = lcVal b

/-- Case-insensitive "the pattern `pat` is a prefix of `s`". -/
def ciStarts : List Char → List Char → Bool
  | [], _ => true
  | _ :: _, [] => false
  | p :: ps, c :: cs => ciEq p c && ciStarts ps cs

/-- Whitespace set of Python's `str.isspace` (used by `str.strip()` and by
the `\s` class of `re` in str mode); ASCII/Latin-1 plus the common Unicode
space code points. -/
def pyIsSpace (c : Char) : Bool :=
  let n := c.toNat
  (9 ≤ n && n ≤ 13) || n == 32 || (28 ≤ n && n ≤ 31) || n == 133 || n == 160 ||
  n == 5760 || (8192 ≤ n && n ≤ 8202) || n == 8232 || n == 8233 || n == 8239 ||
  n == 8287 || n == 12288

/-- `\w` of Python `re`, restricted to ASCII (see header note). -/
def isWordChar (c : Char) : Bool :=
  c.isAlpha || c.isDigit || c == '_'

/-- Python `str.strip()` on the character list: drop leading and trailing
whitespace. -/
def pyStrip (l : List Char) : List Char :=
  ((l.dropWhile pyIsSpace).reverse.dropWhile pyIsSpace).reverse

/-! ## The Sanitizer: `_sanitize_text` (services.py lines 113-140)

Each regex of `malicious_patterns` is hand-compiled to a matcher
`List Char → Option Nat` giving the length of the (unique, see below)
match anchored at the head of the list, or `none`.  Because every
occurrence of `[^>]*` is followed by the literal `>` it excludes, and
every `\w+` / `\s*` run is followed by a literal outside the class, the
Python regexes are deterministic: no backtracking alternative exists, so
each matcher computes the one possible match length. -/

/-- Length up to and including the first `>` (the `[^>]*>` part; `[^>]`
also matches newlines). -/
def findGt : List Char → Option Nat
  | [] => none
  | c :: cs =>
    if c == '>' then some 1 else
    match findGt cs with
    | some n => some (n + 1)
    | none => none

/-- Length up to and including the earliest case-insensitive occurrence of
`close`, refusing to cross a newline first (the lazy `.*?` with `.` not
matching `\n`). -/
def findCloseNoNL (close : List Char) : List Char → Option Nat
  | [] => none
  | c :: cs =>
    if ciStarts close (c :: cs) then some close.length
    else if c == '\n' then none
    else
      match findCloseNoNL close cs with
      | some n => some (n + 1)
      | none => none

/-- Matcher for `<script[^>]*>.*?</script>` and `<style[^>]*>.*?</style>`:
case-insensitive open literal, through the first `>`, then lazily to the
nearest close literal on the same stretch without a newline. -/
def matchOpenClose (openLit closeLit : List Char) (s : List Char) : Option Nat :=
  if ciStarts openLit s then
    match findGt (s.drop openLit.length) with
    | none => none
    | some k =>
      match findCloseNoNL closeLit ((s.drop openLit.length).drop k) with
      | none => none
      | some j => some (openLit.length + k + j)
  else none

/-- Matcher for `<iframe[^>]*>` / `<object[^>]*>` / `<embed[^>]*>` /
`<link[^>]*>`: case-insensitive open literal through the first `>`. -/
def matchTagOpen (openLit : List Char) (s : List Char) : Option Nat :=
  if ciStarts openLit s then
    match findGt (s.drop openLit.length) with
    | none => none
    | some k => some (openLit.length + k)
  else none

/-- Matcher for a case-insensitive literal such as `javascript:`. -/
def matchLitCI (lit : List Char) (s : List Char) : Option Nat :=
  if ciStarts lit s then some lit.length else none

/-- Matcher for `on\w+\s*=`: maximal nonempty word-character run, maximal
whitespace run, then `=`. -/
def matchOnEvent (s : List Char) : Option Nat :=
  if ciStarts [ 'o', 'n' ] s then
    let rest := s.drop 2
    let w := rest.takeWhile isWordChar
    if w.length == 0 then none
    else
      let rest2 := rest.drop w.length
      let sp := rest2.takeWhile pyIsSpace
      match rest2.drop sp.length with
      | '=' :: _ => some (2 + w.length + sp.length + 1)
      | _ => none
  else none

/-- Matcher for `expression\s*\(` / `exec\s*\(` / `eval\s*\(`. -/
def matchNameParen (name : List Char) (s : List Char) : Option Nat :=
  if ciStarts name s then
    let rest := s.drop name.length
    let sp := rest.takeWhile pyIsSpace
    match rest.drop sp.length with
    | '(' :: _ => some (name.length + sp.length + 1)
    | _ => none
  else none

/-- Matcher for `import\s+`: the literal then a maximal nonempty
whitespace run. -/
def matchImportWs (s : List Char) : Option Nat :=
  if ciStarts [ 'i', 'm', 'p', 'o', 'r', 't' ] s then
    let rest := s.drop 6
    let sp := rest.takeWhile pyIsSpace
    if sp.length == 0 then none else some (6 + sp.length)
  else none

/-- One `re.sub(pattern, '', text)` pass: scan left to right, trying the
matcher at every position; on a match, drop it and continue after its end
(non-overlapping, leftmost), otherwise keep the character.  Fuelled for
structural recursion; the fuel is initialised to the list length, which
is always enough since every step consumes at least one character. -/
def subAllF (m : List Char → Option Nat) : Nat → List Char → List Char
  | _, [] => []
  | 0, l => l
  | Nat.succ fuel, c :: cs =>
    match m (c :: cs) with
    | some (Nat.succ n) => subAllF m fuel (cs.drop n)
    | _ => c :: subAllF m fuel cs

/-- `re.sub(pattern, '', text)` with the matcher `m` standing for the
pattern. -/
def subAll (m : List Char → Option Nat) (l : List Char) : List Char :=
  subAllF m l.length l

/-- The twelve `malicious_patterns` substitutions, in source order. -/
def removePatterns (l : List Char) : List Char :=
  let l1 := subAll (matchOpenClose "<script".data "</script>".data) l
  let l2 := subAll (matchLitCI "javascript:".data) l1
  let l3 := subAll matchOnEvent l2
  let l4 := subAll (matchTagOpen "<iframe".data) l3
  let l5 := subAll (matchTagOpen "<object".data) l4
  let l6 := subAll (matchTagOpen "<embed".data) l5
  let l7 := subAll (matchTagOpen "<link".data) l6
  let l8 := subAll (matchOpenClose "<style".data "</style>".data) l7
  let l9 := subAll (matchNameParen "expression".data) l8
  let l10 := subAll matchImportWs l9
  let l11 := subAll (matchNameParen "exec".data) l10
  subAll (matchNameParen "eval".data) l11

/-- The `text.replace('<', '&lt;').replace('>', '&gt;')` step.  The two
`str.replace` calls compose into one character-wise pass because the
first pass outputs no `>` inside its replacements. -/
def escapeLtGt : List Char → List Char
  | [] => []
  | c :: cs =>
    (if c == '<' then [ '&', 'l', 't', ';' ]
     else if c == '>' then [ '&', 'g', 't', ';' ]
     else [c]) ++ escapeLtGt cs

/-- `_sanitize_text` on a string argument: pattern removal in sequence,
then angle-bracket escaping, then `strip()`. -/
def sanitize_text (s : String) : String :=
  ⟨pyStrip (escapeLtGt (removePatterns s.data))⟩

/-! ## Sanitizer lemmas -/

/-- The escaping pass emits no `<` and no `>`. -/
theorem escapeLtGt_no_angle (l : List Char) :
    ∀ c ∈ escapeLtGt l, c ≠ '<' ∧ c ≠ '>' := by
  induction l with
  | nil => intro c hc; cases hc
  | cons a as ih =>
    intro c hc
    unfold escapeLtGt at hc
    rw [List.mem_append] at hc
    rcases hc with hc | hc
    · split at hc
      · simp only [List.mem_cons, List.not_mem_nil, or_false] at hc
        rcases hc with rfl | rfl | rfl | rfl <;> decide
      · split at hc
        · simp only [List.mem_cons, List.not_mem_nil, or_false] at hc
          rcases hc with rfl | rfl | rfl | rfl <;> decide
        · simp only [List.mem_cons, List.not_mem_nil, or_false] at hc
          subst hc
          constructor <;> intro h <;> subst h <;> simp_all
    · exact ih c hc

/-- The escaping pass is the identity on text without angle brackets. -/
theorem escapeLtGt_eq_self (l : List Char) (h : ∀ c ∈ l, c ≠ '<' ∧ c ≠ '>') :
    escapeLtGt l = l := by
  induction l with
  | nil => rfl
  | cons a as ih =>
    have ha := h a (List.mem_cons_self a as)
    unfold escapeLtGt
    rw [if_neg (by simpa using ha.1), if_neg (by simpa using ha.2)]
    simp [ih fun c hc => h c (List.mem_cons_of_mem a hc)]

/-- `dropWhile` keeps a subset of the characters. -/
theorem mem_of_mem_dropWhile {p : Char → Bool} {l : List Char} {c : Char}
    (h : c ∈ l.dropWhile p) : c ∈ l := by
  induction l with
  | nil => cases h
  | cons a as ih =>
    rw [List.dropWhile_cons] at h
    split at h
    · exact List.mem_cons_of_mem a (ih h)
    · exact h

/-- `pyStrip` keeps a subset of the characters. -/
theorem mem_of_mem_pyStrip {l : List Char} {c : Char} (h : c ∈ pyStrip l) : c ∈ l := by
  unfold pyStrip at h
  rw [List.mem_reverse] at h
  have h2 := mem_of_mem_dropWhile h
  rw [List.mem_reverse] at h2
  exact mem_of_mem_dropWhile h2

/-- The head of a `dropWhile p` result never satisfies `p`. -/
theorem head_dropWhile_not {p : Char → Bool} :
    ∀ (l : List Char) (a : Char), (l.dropWhile p).head? = some a → p a = false := by
  intro l
  induction l with
  | nil => intro a h; cases h
  | cons b bs ih =>
    intro a h
    rw [List.dropWhile_cons] at h
    split at h
    · exact ih a h
    · rw [List.head?_cons, Option.some_inj] at h
      subst h
      simp_all
  
/-- `dropWhile p` is the identity when the head does not satisfy `p`. -/
theorem dropWhile_eq_self_of_head {p : Char → Bool} (l : List Char)
    (h : ∀ a, l.head? = some a → p a = false) : l.dropWhile p = l := by
  cases l with
  | nil => rfl
  | cons b bs =>
    rw [List.dropWhile_cons, if_neg]
    simp [h b rfl]

/-- A nonempty `dropWhile` result has the same last element as the input. -/
theorem getLast?_dropWhile {p : Char → Bool} :
    ∀ (l : List Char), l.dropWhile p ≠ [] → (l.dropWhile p).getLast? = l.getLast? := by
  intro l
  induction l with
  | nil => intro h; simp at h
  | cons b bs ih =>
    intro h
    rw [List.dropWhile_cons]
    rw [List.dropWhile_cons] at h
    split at h <;> rename_i hpb
    · rw [if_pos hpb, ih h]
      have hbs : bs ≠ [] := by
        intro hbs; rw [hbs] at h; simp at h
      cases bs with
      | nil => exact absurd rfl hbs
      | cons c cs => rw [List.getLast?_cons_cons]
    · rw [if_neg hpb]

/-- `pyStrip` is idempotent (trimmed text trims to itself). -/
theorem pyStrip_idem (l : List Char) : pyStrip (pyStrip l) = pyStrip l := by
  by_cases hy : pyStrip l = []
  · rw [hy]; rfl
  · have hyr : pyStrip l = ((l.dropWhile pyIsSpace).reverse.dropWhile pyIsSpace).reverse := rfl
    have hrne : (l.dropWhile pyIsSpace).reverse.dropWhile pyIsSpace ≠ [] := by
      intro h0
      apply hy
      rw [hyr, h0]
      rfl
    -- the head of `pyStrip l` is the last of the inner `dropWhile`, which is
    -- the last of `(l.dropWhile ..).reverse`, i.e. the head of
    -- `l.dropWhile ..`, hence not whitespace
    have hhead : ∀ a, (pyStrip l).head? = some a → pyIsSpace a = false := by
      intro a ha
      rw [hyr, List.head?_reverse, getLast?_dropWhile _ hrne, List.getLast?_reverse] at ha
      exact head_dropWhile_not l a ha
    -- the head of the inner `dropWhile` is not whitespace either
    have hheadr : ∀ a, ((l.dropWhile pyIsSpace).reverse.dropWhile pyIsSpace).head? = some a →
        pyIsSpace a = false := fun a ha => head_dropWhile_not _ a ha
    show (((pyStrip l).dropWhile pyIsSpace).reverse.dropWhile pyIsSpace).reverse = pyStrip l
    rw [dropWhile_eq_self_of_head _ hhead, hyr, List.reverse_reverse,
      dropWhile_eq_self_of_head _ hheadr]

set_option maxHeartbeats 2000000 in
/-- C7 counterexample: the Sanitizer is not idempotent.  Removing the
`javascript:` occurrence from `javajavascript:script:` glues a fresh
`javascript:` together, which only a second pass removes. -/
theorem sanitize_text_not_idempotent :
    sanitize_text (sanitize_text "javajavascript:script:") ≠
      sanitize_text "javajavascript:script:" := by decide

/-- Unfolding equation for `sanitize_text` (kept as a lemma: rewriting with
it avoids forcing whnf through the twelve substitution passes). -/
theorem sanitize_text_def (s : String) :
    sanitize_text s = ⟨pyStrip (escapeLtGt (removePatterns s.data))⟩ := rfl

/-- Data of a literal `String.mk`. -/
theorem string_data_mk (l : List Char) : (⟨l⟩ : String).data = l := rfl

/-- C7 (amended): the Sanitizer is idempotent on already-clean text: if the
pattern-removal pass leaves `sanitize_text x` unchanged, then sanitizing it
again changes nothing. -/
theorem sanitize_text_idem_of_clean (x : String)
    (h : removePatterns (sanitize_text x).data = (sanitize_text x).data) :
    sanitize_text (sanitize_text x) = sanitize_text x := by
  have hdata : (sanitize_text x).data = pyStrip (escapeLtGt (removePatterns x.data)) := by
    rw [sanitize_text_def, string_data_mk]
  have hclean : ∀ c ∈ pyStrip (escapeLtGt (removePatterns x.data)), c ≠ '<' ∧ c ≠ '>' :=
    fun c hc => escapeLtGt_no_angle _ c (mem_of_mem_pyStrip hc)
  rw [sanitize_text_def (sanitize_text x), h, hdata, escapeLtGt_eq_self _ hclean,
    pyStrip_idem, sanitize_text_def x]

set_option maxHeartbeats 2000000 in
theorem sanitize_text_idem_of_clean_witness :
    (removePatterns (sanitize_text "  Hello world ").data =
      (sanitize_text "  Hello world ").data) ∧
    sanitize_text (sanitize_text "  Hello world ") = sanitize_text "  Hello world " :=
  ⟨by decide, sanitize_text_idem_of_clean "  Hello world " (by decide)⟩

set_option maxHeartbeats 2000000 in
/-- C8: the Sanitizer removes the fixed pattern list case-insensitively, in
the stated order before angle-bracket escaping and trimming.  The script
example leaves exactly `Hello` with no residual tag text, also when the
tags are upper-case; and for every input the pipeline is literally
pattern-removal, then escaping, then trim. -/
theorem sanitize_text_removes_patterns :
    sanitize_text "<script>alert(1)</script>Hello" = "Hello" ∧
    sanitize_text "<SCRIPT SRC=x>alert(1)</SCRIPT>Hello" = "Hello" ∧
    ∀ s : String, sanitize_text s = ⟨pyStrip (escapeLtGt (removePatterns s.data))⟩ :=
  ⟨by decide, by decide, fun s => rfl⟩

/-! ## The Prompt Builder: `_create_prompt` (services.py lines 49-111)

Free-text fields go through `json.dumps(value)[1:-1]`: the JSON string
encoding with its surrounding quotes stripped.  `json.dumps` defaults to
`ensure_ascii=True`: it emits `\"`, `\\`, the short escapes for
backspace/formfeed/newline/carriage-return/tab, `\u00XX` for the other
control characters, the character itself for printable ASCII, and `\uXXXX`
(a surrogate pair for astral characters) for everything non-ASCII. -/

/-- Lower-case hexadecimal digit, as `json.dumps` emits them. -/
def hexDigit (n : Nat) : Char :=
  match n with
  | 0 => '0' | 1 => '1' | 2 => '2' | 3 => '3' | 4 => '4'
  | 5 => '5' | 6 => '6' | 7 => '7' | 8 => '8' | 9 => '9'
  | 10 => 'a' | 11 => 'b' | 12 => 'c' | 13 => 'd' | 14 => 'e'
  | _ => 'f'

/-- A `\uXXXX` escape for a 16-bit code unit. -/
def u4 (n : Nat) : List Char :=
  [ '\\', 'u', hexDigit (n / 4096 % 16), hexDigit (n / 256 % 16),
    hexDigit (n / 16 % 16), hexDigit (n % 16) ]

/-- `json.dumps` encoding of one character (inside the quotes). -/
def escJsonChar (c : Char) : List Char :=
  if c == '"' then [ '\\', '"' ]
  else if c == '\\' then [ '\\', '\\' ]
  else if c == '\n' then [ '\\', 'n' ]
  else if c == '\r' then [ '\\', 'r' ]
  else if c == '\t' then [ '\\', 't' ]
  else if c == '\x08' then [ '\\', 'b' ]
  else if c == '\x0c' then [ '\\', 'f' ]
  else if c.toNat < 32 then u4 c.toNat
  else if c.toNat ≤ 126 then [c]
  else if c.toNat < 65536 then u4 c.toNat
  else
    u4 (55296 + (c.toNat - 65536) / 1024) ++ u4 (56320 + (c.toNat - 65536) % 1024)

/-- `json.dumps(s)[1:-1]` on the character list. -/
def escJson : List Char → List Char
  | [] => []
  | c :: cs => escJsonChar c ++ escJson cs

/-- `json.dumps(s)[1:-1]` on strings: the escaping the Prompt Builder
applies to title, company name, company overview, each skill and location
(but, per the source, not to employment type). -/
def jsonEscape (s : String) : String := ⟨escJson s.data⟩

/-- Python truthiness of the optional string fields (`if location:` /
`if employment_type:`): present and non-empty. -/
def truthy : Option String → Bool
  | some s => !s.isEmpty
  | none => false

/-- `_create_prompt`, with the f-string template reproduced verbatim
(literal braces of the JSON schema written as hex escapes). -/
def create_prompt (job_title : String) (years : Int) (level : String)
    (company_name : String) (company_overview : String) (skills : List String)
    (location : Option String) (employment_type : Option String) : String :=
  let safe_title := jsonEscape job_title
  let safe_company_name := jsonEscape company_name
  let safe_company_overview := jsonEscape company_overview
  let skills_str := String.intercalate ", " (skills.map jsonEscape)
  let additional_info :=
    (if truthy location then "\nLocation: " ++ jsonEscape (location.getD "") else "") ++
    (if truthy employment_type then "\nEmployment Type: " ++ employment_type.getD "" else "")
  "Please generate a professional job description for a " ++ safe_title ++
  " position.\nCompany: " ++ safe_company_name ++
  "\nCompany Overview: " ++ safe_company_overview ++
  "\nRole: " ++ safe_title ++ " (" ++ level ++ " level, " ++ toString years ++
  " years experience required)\nRequired skills: " ++ skills_str ++ additional_info ++
  "\n\nFormat the response strictly as a JSON object with the following structure:\n" ++
  "\x7b\n    \"responsibilities\": [\n        \"responsibility 1\",\n        \"responsibility 2\",\n        ...\n    ],\n" ++
  "    \"qualifications\": [\n        \"qualification 1\",\n        \"qualification 2\",\n        ...\n    ],\n" ++
  "    \"required_skills\": [\n        \"skill 1\",\n        \"skill 2\",\n        ...\n    ],\n" ++
  "    \"optional_skills\": [\n        \"skill 1\",\n        \"skill 2\",\n        ...\n    ]\n\x7d\n\n" ++
  "Include 5-7 items in responsibilities and qualifications lists.\n" ++
  "Extract and categorize skills into required and optional based on industry standards.\n" ++
  "Focus on professional standards and industry requirements for " ++ level ++
  " level positions with " ++ toString years ++ " years of experience."

/-- Hex digits are printable. -/
theorem hexDigit_printable (n : Nat) : 32 ≤ (hexDigit n).toNat := by
  unfold hexDigit
  split <;> decide

/-- `\uXXXX` escapes contain only printable characters. -/
theorem u4_printable (n : Nat) : ∀ x ∈ u4 n, 32 ≤ x.toNat := by
  intro x hx
  simp only [u4, List.mem_cons, List.not_mem_nil, or_false] at hx
  rcases hx with rfl | rfl | rfl | rfl | rfl | rfl
  · decide
  · decide
  all_goals exact hexDigit_printable _

/-- The `json.dumps` encoding of a character contains no control
character. -/
theorem escJsonChar_no_ctrl (c : Char) : ∀ x ∈ escJsonChar c, 32 ≤ x.toNat := by
  intro x hx
  unfold escJsonChar at hx
  split at hx
  · simp only [List.mem_cons, List.not_mem_nil, or_false] at hx
    rcases hx with rfl | rfl <;> decide
  · split at hx
    · simp only [List.mem_cons, List.not_mem_nil, or_false] at hx
      rcases hx with rfl | rfl <;> decide
    · split at hx
      · simp only [List.mem_cons, List.not_mem_nil, or_false] at hx
        rcases hx with rfl | rfl <;> decide
      · split at hx
        · simp only [List.mem_cons, List.not_mem_nil, or_false] at hx
          rcases hx with rfl | rfl <;> decide
        · split at hx
          · simp only [List.mem_cons, List.not_mem_nil, or_false] at hx
            rcases hx with rfl | rfl <;> decide
          · split at hx
            · simp only [List.mem_cons, List.not_mem_nil, or_false] at hx
              rcases hx with rfl | rfl <;> decide
            · split at hx
              · simp only [List.mem_cons, List.not_mem_nil, or_false] at hx
                rcases hx with rfl | rfl <;> decide
              · split at hx
                · exact u4_printable _ x hx
                · split at hx
                  · rename_i h32 _
                    simp only [List.mem_cons, List.not_mem_nil, or_false] at hx
                    subst hx
                    omega
                  · split at hx
                    · exact u4_printable _ x hx
                    · rw [List.mem_append] at hx
                      rcases hx with hx | hx <;> exact u4_printable _ x hx

/-- The whole `json.dumps(s)[1:-1]` encoding contains no control
character: whatever a caller puts in an escaped field cannot inject raw
control characters into the prompt. -/
theorem escJson_no_ctrl (l : List Char) : ∀ x ∈ escJson l, 32 ≤ x.toNat := by
  induction l with
  | nil => intro x hx; cases hx
  | cons a as ih =>
    intro x hx
    unfold escJson at hx
    rw [List.mem_append] at hx
    rcases hx with hx | hx
    · exact escJsonChar_no_ctrl a x hx
    · exact ih x hx

set_option maxRecDepth 8000 in
set_option maxHeartbeats 2000000 in
/-- C5: the Prompt Builder does NOT escape every caller field: the
employment type is interpolated verbatim.  A control character `\x01`
placed in the employment type survives into the prompt, while the same
character placed in every escaped field (title, company name, overview,
skills, location) is encoded away; and in general the escaped encoding
never contains a control character. -/
theorem create_prompt_employment_type_unescaped :
    (create_prompt "T" 1 "Entry" "C" "O" [ "S" ] none (some "\x01")).data.contains '\x01' = true ∧
    (create_prompt "\x01" 1 "Entry" "\x01" "\x01" [ "\x01" ] (some "\x01") none).data.contains '\x01' = false ∧
    ∀ s : String, (jsonEscape s).data.all (fun c => decide (32 ≤ c.toNat)) = true := by
  refine ⟨by decide, by decide, fun s => ?_⟩
  rw [List.all_eq_true]
  intro c hc
  rw [decide_eq_true_eq]
  exact escJson_no_ctrl s.data c hc

/-! ## `json.loads`, modelled

A fuelled recursive-descent parser with Python's `json` semantics:
optional whitespace (space/tab/newline/CR) between tokens, strict strings
(escapes `\" \\ \/ \b \f \n \r \t \uXXXX`, raw control characters
rejected, surrogate pairs combined; a lone surrogate, which Python would
keep and Lean cannot represent, becomes U+FFFD), JSON numbers kept as
lexemes, the literals `true`/`false`/`null` and Python's non-standard
`NaN`/`Infinity`/`-Infinity`, exactly one top-level value. -/

/-- JSON inter-token whitespace. -/
def jsonWs (c : Char) : Bool := c == ' ' || c == '\t' || c == '\n' || c == '\r'

/-- Value of a hex digit. -/
def hexVal (c : Char) : Option Nat :=
  let n := c.toNat
  if 48 ≤ n ∧ n ≤ 57 then some (n - 48)
  else if 97 ≤ n ∧ n ≤ 102 then some (n - 87)
  else if 65 ≤ n ∧ n ≤ 70 then some (n - 55)
  else none

/-- Parse a strict JSON string body after the opening quote; returns the
decoded characters and the remaining input after the closing quote.
Fuelled for structural recursion (each step consumes at least one input
character, so fuel = length + 1 is always enough). -/
def parseStrAux : Nat → List Char → Option (List Char × List Char)
  | 0, _ => none
  | Nat.succ _, [] => none
  | Nat.succ _, '"' :: rest => some ([], rest)
  | Nat.succ fuel, '\\' :: rest =>
    match rest with
    | '"' :: r => (parseStrAux fuel r).map (fun p => ('"' :: p.1, p.2))
    | '\\' :: r => (parseStrAux fuel r).map (fun p => ('\\' :: p.1, p.2))
    | '/' :: r => (parseStrAux fuel r).map (fun p => ('/' :: p.1, p.2))
    | 'b' :: r => (parseStrAux fuel r).map (fun p => ('\x08' :: p.1, p.2))
    | 'f' :: r => (parseStrAux fuel r).map (fun p => ('\x0c' :: p.1, p.2))
    | 'n' :: r => (parseStrAux fuel r).map (fun p => ('\n' :: p.1, p.2))
    | 'r' :: r => (parseStrAux fuel r).map (fun p => ('\r' :: p.1, p.2))
    | 't' :: r => (parseStrAux fuel r).map (fun p => ('\t' :: p.1, p.2))
    | 'u' :: a1 :: b1 :: c1 :: d1 :: r =>
      match hexVal a1, hexVal b1, hexVal c1, hexVal d1 with
      | some ha, some hb, some hc, some hd =>
        let n := ha * 4096 + hb * 256 + hc * 16 + hd
        if 55296 ≤ n ∧ n ≤ 56319 then
          match r with
          | '\\' :: 'u' :: a2 :: b2 :: c2 :: d2 :: r2 =>
            (match hexVal a2, hexVal b2, hexVal c2, hexVal d2 with
             | some ha2, some hb2, some hc2, some hd2 =>
               let m := ha2 * 4096 + hb2 * 256 + hc2 * 16 + hd2
               if 56320 ≤ m ∧ m ≤ 57343 then
                 (parseStrAux fuel r2).map (fun p =>
                   (Char.ofNat (65536 + (n - 55296) * 1024 + (m - 56320)) :: p.1, p.2))
               else (parseStrAux fuel r).map (fun p => ('�' :: p.1, p.2))
             | _, _, _, _ => (parseStrAux fuel r).map (fun p => ('�' :: p.1, p.2)))
          | _ => (parseStrAux fuel r).map (fun p => ('�' :: p.1, p.2))
        else if 56320 ≤ n ∧ n ≤ 57343 then
          (parseStrAux fuel r).map (fun p => ('�' :: p.1, p.2))
        else
          (parseStrAux fuel r).map (fun p => (Char.ofNat n :: p.1, p.2))
      | _, _, _, _ => none
    | _ => none
  | Nat.succ fuel, c :: rest =>
    if c.toNat < 32 then none
    else (parseStrAux fuel rest).map (fun p => (c :: p.1, p.2))

/-- A maximal run of decimal digits. -/
def digitRun (l : List Char) : List Char := l.takeWhile (fun c => c.isDigit)

/-- Optional fraction part `.[0-9]+` (consumed only when complete). -/
def lexFrac (l : List Char) : List Char × List Char :=
  match l with
  | '.' :: r =>
    let ds := digitRun r
    if ds.isEmpty then ([], l) else ('.' :: ds, r.drop ds.length)
  | _ => ([], l)

/-- Optional exponent part `[eE][+-]?[0-9]+` (consumed only when
complete). -/
def lexExp (l : List Char) : List Char × List Char :=
  match l with
  | e :: r =>
    if e == 'e' || e == 'E' then
      match r with
      | s :: r2 =>
        if s == '+' || s == '-' then
          let ds := digitRun r2
          if ds.isEmpty then ([], l) else (e :: s :: ds, r2.drop ds.length)
        else
          let ds := digitRun r
          if ds.isEmpty then ([], l) else (e :: ds, r.drop ds.length)
      | [] => ([], l)
    else ([], l)
  | [] => ([], l)

/-- The JSON number grammar `-?(0|[1-9][0-9]*)(\.[0-9]+)?([eE][+-]?[0-9]+)?`
as a maximal-munch lexer; returns lexeme and rest. -/
def lexNumber (l : List Char) : Option (List Char × List Char) :=
  let sign : List Char × List Char :=
    match l with
    | '-' :: r => ([ '-' ], r)
    | _ => ([], l)
  match sign.2 with
  | '0' :: r =>
    let f := lexFrac r
    let e := lexExp f.2
    some (sign.1 ++ '0' :: f.1 ++ e.1, e.2)
  | c :: r =>
    if c.isDigit then
      let ds := digitRun r
      let f := lexFrac (r.drop ds.length)
      let e := lexExp f.2
      some (sign.1 ++ c :: ds ++ f.1 ++ e.1, e.2)
    else none
  | [] => none

/-- The recursive-descent core.  `mode 0` parses one value; `mode 1` an
array body right after `[`; `mode 3` the element list of a nonempty array;
`mode 2` an object body right after the opening brace; `mode 4` the member
list of a nonempty object.  Fuelled (each step spends one unit; the
initial fuel in `loads` is generous). -/
def parseP : Nat → Nat → List Char → Option (Json × List Char)
  | 0, _, _ => none
  | Nat.succ fuel, 0, l =>
    match l.dropWhile jsonWs with
    | '"' :: rest => (parseStrAux (rest.length + 1) rest).map (fun p => (Json.str ⟨p.1⟩, p.2))
    | '\x7b' :: rest => parseP fuel 2 rest
    | '[' :: rest => parseP fuel 1 rest
    | l0 =>
      if "true".data.isPrefixOf l0 then some (.bool true, l0.drop 4)
      else if "false".data.isPrefixOf l0 then some (.bool false, l0.drop 5)
      else if "null".data.isPrefixOf l0 then some (.null, l0.drop 4)
      else if "NaN".data.isPrefixOf l0 then some (.num "NaN", l0.drop 3)
      else if "Infinity".data.isPrefixOf l0 then some (.num "Infinity", l0.drop 8)
      else if "-Infinity".data.isPrefixOf l0 then some (.num "-Infinity", l0.drop 9)
      else
        match lexNumber l0 with
        | some (lex, rest) => some (.num ⟨lex⟩, rest)
        | none => none
  | Nat.succ fuel, 1, l =>
    match l.dropWhile jsonWs with
    | ']' :: rest => some (.arr [], rest)
    | _ => parseP fuel 3 l
  | Nat.succ fuel, 3, l =>
    match parseP fuel 0 l with
    | none => none
    | some (v, r) =>
      match r.dropWhile jsonWs with
      | ']' :: rest => some (.arr [v], rest)
      | ',' :: rest =>
        match parseP fuel 3 rest with
        | some (Json.arr vs, rest2) => some (.arr (v :: vs), rest2)
        | _ => none
      | _ => none
  | Nat.succ fuel, 2, l =>
    match l.dropWhile jsonWs with
    | '\x7d' :: rest => some (.obj [], rest)
    | _ => parseP fuel 4 l
  | Nat.succ fuel, 4, l =>
    match l.dropWhile jsonWs with
    | '"' :: rest =>
      match parseStrAux (rest.length + 1) rest with
      | none => none
      | some (k, r1) =>
        match r1.dropWhile jsonWs with
        | ':' :: r2 =>
          match parseP fuel 0 r2 with
          | none => none
          | some (v, r3) =>
            match r3.dropWhile jsonWs with
            | '\x7d' :: rest2 => some (.obj [(⟨k⟩, v)], rest2)
            | ',' :: rest2 =>
              match parseP fuel 4 rest2 with
              | some (Json.obj ms, rest3) => some (.obj ((⟨k⟩, v) :: ms), rest3)
              | _ => none
            | _ => none
        | _ => none
    | _ => none
  | Nat.succ _, _, _ => none

/-- `json.loads`: exactly one value, optionally surrounded by
whitespace. -/
def loads (s : String) : Option Json :=
  match parseP (3 * s.data.length + 3) 0 s.data with
  | some (j, rest) => if (rest.dropWhile jsonWs).isEmpty then some j else none
  | none => none

/-! ## Json helpers mirroring the Python operations -/

/-- Whether a validated JSON number lexeme denotes zero (all mantissa
digits are 0; sign and exponent are irrelevant, `NaN`/`Infinity` are
nonzero). -/
def numIsZero (lex : String) : Bool :=
  let l := match lex.data with
    | '-' :: r => r
    | l0 => l0
  match l with
  | 'N' :: _ => false
  | 'I' :: _ => false
  | _ => (l.takeWhile (fun c => !(c == 'e' || c == 'E'))).all (fun c => c == '0' || c == '.')

/-- Python truthiness of a JSON value (`None`, `False`, zero, empty
string/list/dict are falsy). -/
def jsonFalsy : Json → Bool
  | .null => true
  | .bool b => !b
  | .num lex => numIsZero lex
  | .str s => s.isEmpty
  | .arr xs => xs.isEmpty
  | .obj fs => fs.isEmpty

/-- `dict` lookup: the last binding of the key wins, as in a dict built by
`json.loads` from possibly-duplicated keys. -/
def dictGet? (fs : List (String × Json)) (k : String) : Option Json :=
  (fs.reverse.find? (fun p => p.1 == k)).map (fun p => p.2)

/-- `k in d` for a dict. -/
def dictHasKey (fs : List (String × Json)) (k : String) : Bool :=
  fs.any (fun p => p.1 == k)

/-- Python substring test `needle in hay`. -/
def isSubstr (needle hay : String) : Bool :=
  (List.range (hay.data.length + 1)).any (fun i => needle.data.isPrefixOf (hay.data.drop i))

/-- Python `k in parsed` (services.py line 297): key membership for dicts;
for lists, element equality (a JSON element equals the Python string `k`
only when it is that string); substring test for strings; `TypeError` for
the other types. -/
def pyInJson (k : String) : Json → Except Exc Bool
  | .obj fs => .ok (dictHasKey fs k)
  | .arr xs => .ok (xs.any (fun x => match x with | .str s => s == k | _ => false))
  | .str s => .ok (isSubstr k s)
  | _ => .error .otherExc

/-- `all(key in parsed for key in required_keys)` over the four required
array fields (line 296-297). -/
def hasAllKeys (j : Json) : Except Exc Bool :=
  match pyInJson "responsibilities" j with
  | .error e => .error e
  | .ok a =>
    match pyInJson "qualifications" j with
    | .error e => .error e
    | .ok b =>
      match pyInJson "required_skills" j with
      | .error e => .error e
      | .ok c =>
        match pyInJson "optional_skills" j with
        | .error e => .error e
        | .ok d => .ok (a && b && c && d)

/-- Python `x[:n]` on a parsed field value (lines 311-314): lists slice;
strings slice too (and iterating a string yields 1-character strings);
every other type raises `TypeError` — which the inner
`except (JSONDecodeError, KeyError, IndexError)` does NOT catch, so it
surfaces as `otherExc` and becomes the generic SecurityError outside. -/
def pySlice (n : Nat) : Json → Except Exc (List Json)
  | .arr xs => .ok (xs.take n)
  | .str s => .ok ((s.data.take n).map (fun c => Json.str ⟨[c]⟩))
  | _ => .error .otherExc

/-- `_sanitize_text` as applied to each kept item: the `isinstance` guard
maps every non-string item to the empty string. -/
def sanitizeItem : Json → String
  | .str s => sanitize_text s
  | _ => ""

/-! ## The outbound call: `_make_api_call` (services.py lines 142-197) -/

/-- Observable outcome of the single `httpx` POST. -/
inductive CallResult where
  | timeout
  | httpError (status : Nat)
  | connectError
  | badContentType
  | otherFailure
  | success (body : Json)

/-- What the try block of `_make_api_call` produces for each outcome:
`raise_for_status` throws `HTTPStatusError` for error statuses, a
non-JSON content type raises `SecurityError("Invalid response content
type")` from inside the block, any other failure is some other
exception, and otherwise the parsed 2xx JSON body is returned. -/
def apiTryBody : CallResult → Except Exc Json
  | .timeout => .error .timeoutExc
  | .httpError s => .error (.httpStatusExc s)
  | .connectError => .error .connectExc
  | .badContentType => .error (.securityError "Invalid response content type")
  | .otherFailure => .error .otherExc
  | .success body => .ok body

/-- `_make_api_call`: the except chain in source order (TimeoutException,
HTTPStatusError with 429/401/other cases, ConnectError, then
`except Exception`).  Note the final clause also catches the
`SecurityError` raised inside the try block for a bad content type and
replaces its message with "API request failed". -/
def make_api_call (call : CallResult) : Except Exc Json :=
  match apiTryBody call with
  | .ok body => .ok body
  | .error .timeoutExc => .error (.securityError "Request timeout - please try again")
  | .error (.httpStatusExc s) =>
    if s == 429 then .error (.securityError "API rate limit exceeded - please wait before retrying")
    else if s == 401 then .error (.securityError "API authentication failed")
    else .error (.securityError "API request failed")
  | .error .connectExc => .error (.securityError "Unable to connect to API service")
  | .error _ => .error (.securityError "API request failed")

/-! ## The Generation Orchestrator: `generate_job_description_async`
(services.py lines 251-335) -/

/-- `response.get('choices')` and its falsiness check (lines 274-275): a
missing or falsy value raises `SecurityError("Invalid API response
structure")`; calling `.get` on a non-dict body raises `AttributeError`
(`otherExc`). -/
def choicesField : Json → Except Exc Json
  | .obj fs =>
    match dictGet? fs "choices" with
    | some v =>
      if jsonFalsy v then .error (.securityError "Invalid API response structure")
      else .ok v
    | none => .error (.securityError "Invalid API response structure")
  | _ => .error .otherExc

/-- Python `x[0]` (line 277): list indexing (IndexError when empty, here
outside the inner try, hence `otherExc`), string indexing (a 1-character
string), `TypeError` otherwise. -/
def pyIdx0 : Json → Except Exc Json
  | .arr (x :: _) => .ok x
  | .arr [] => .error .otherExc
  | .str s =>
    match s.data with
    | c :: _ => .ok (.str ⟨[c]⟩)
    | [] => .error .otherExc
  | _ => .error .otherExc

/-- Python `x[k]` for a string key (line 277): dict lookup (KeyError when
absent), `TypeError` on every other type. -/
def pyIdxKey (k : String) : Json → Except Exc Json
  | .obj fs =>
    match dictGet? fs k with
    | some v => .ok v
    | none => .error .otherExc
  | _ => .error .otherExc

/-- `response['choices'][0]['message']['content'].strip()` guarded by the
falsy-`choices` check (lines 274-277); `.strip()` on a non-string raises
`AttributeError`. -/
def extract_content (body : Json) : Except Exc String :=
  match choicesField body with
  | .error e => .error e
  | .ok cv =>
    match pyIdx0 cv with
    | .error e => .error e
    | .ok c0 =>
      match pyIdxKey "message" c0 with
      | .error e => .error e
      | .ok msg =>
        match pyIdxKey "content" msg with
        | .error e => .error e
        | .ok ct =>
          match ct with
          | .str s => .ok ⟨pyStrip s.data⟩
          | _ => .error .otherExc

/-- `str.find`: index of the first occurrence, if any. -/
def findChar (ch : Char) : List Char → Option Nat
  | [] => none
  | c :: cs =>
    if c == ch then some 0 else
    match findChar ch cs with
    | some n => some (n + 1)
    | none => none

/-- `str.rfind`: index of the last occurrence, if any. -/
def rfindChar (ch : Char) (l : List Char) : Option Nat :=
  (findChar ch l.reverse).map (fun i => l.length - 1 - i)

/-- Lines 280-290: `content.find('\x7b')` / `content.rfind('\x7d')` and the
inclusive slice `content[start:end+1]` (empty when the first brace is
after the last closing brace, exactly like the Python slice). -/
def braceSlice (content : String) : Option String :=
  match findChar '\x7b' content.data, rfindChar '\x7d' content.data with
  | some si, some ei => some ⟨(content.data.drop si).take (ei + 1 - si)⟩
  | _, _ => none

/-- The output record (the result dict of lines 305-320 / 211-246); the
optional fields are `none` when the corresponding key is absent. -/
structure GeneratedDescription where
  company_name : String
  company_overview : String
  title : String
  experience_level : String
  experience_years : Int
  responsibilities : List String
  qualifications : List String
  required_skills : List String
  optional_skills : List String
  location : Option String
  employment_type : Option String
deriving DecidableEq, Repr

/-- The `if location: result["location"] = location` conditional keys
(lines 243-246 and 317-320): attached only when truthy. -/
def attachOpt (o : Option String) : Option String :=
  if truthy o then o else none

/-- `_generate_fallback` (lines 199-249): fields in record order are
company name, company overview, title, level, years, the five fixed
responsibilities, the five fixed qualifications, the three required and
three optional skills, then the conditionally attached location and
employment type. -/
def generate_fallback (job_title company_name company_overview : String)
    (years : Int) (level : String)
    (location employment_type : Option String) : GeneratedDescription :=
  ⟨company_name, company_overview, job_title, level, years,
   [ "Lead " ++ job_title ++ " initiatives and projects",
     "Collaborate with cross-functional teams",
     "Implement industry best practices",
     "Develop and maintain documentation",
     "Contribute to process improvements" ],
   [ "Proven experience as a " ++ job_title,
     "Strong analytical and problem-solving skills",
     "Excellent communication abilities",
     "Team collaboration experience",
     "Relevant technical expertise" ],
   [ "Communication", "Project Management", "Problem Solving" ],
   [ "Leadership", "Industry-specific knowledge", "Relevant certifications" ],
   attachOpt location, attachOpt employment_type⟩

/-- Lines 304-322: the sanitized result.  The `(dictGet? ..).getD .null`
defaults are unreachable: key presence was just checked, so the dict
lookups cannot raise.  A non-dict `parsed` would raise `TypeError` on
`parsed['responsibilities']`. -/
def buildResult (job_title : String) (years : Int) (level : String)
    (company_name company_overview : String)
    (location employment_type : Option String) (parsed : Json) :
    Except Exc GeneratedDescription :=
  match parsed with
  | .obj fs =>
    match pySlice 7 ((dictGet? fs "responsibilities").getD .null) with
    | .error e => .error e
    | .ok rl =>
      match pySlice 7 ((dictGet? fs "qualifications").getD .null) with
      | .error e => .error e
      | .ok ql =>
        match pySlice 10 ((dictGet? fs "required_skills").getD .null) with
        | .error e => .error e
        | .ok rsl =>
          match pySlice 10 ((dictGet? fs "optional_skills").getD .null) with
          | .error e => .error e
          | .ok osl =>
            .ok ⟨company_name, company_overview, job_title, level, years,
                 rl.map sanitizeItem, ql.map sanitizeItem,
                 rsl.map sanitizeItem, osl.map sanitizeItem,
                 attachOpt location, attachOpt employment_type⟩
  | _ => .error .otherExc

/-- Lines 280-329 after content extraction: brace search (fallback when a
brace is missing), `json.loads` on the slice (fallback on parse failure,
via the inner except), the required-keys check (fallback when one is
missing), then the sanitized result construction.  The construction's own
possible exception is a `TypeError`, which the inner except does not
catch, so it propagates. -/
def process_content (job_title : String) (years : Int) (level : String)
    (company_name company_overview : String)
    (location employment_type : Option String) (content : String) :
    Except Exc GeneratedDescription :=
  match braceSlice content with
  | none =>
    .ok (generate_fallback job_title company_name company_overview years level
          location employment_type)
  | some js =>
    match loads js with
    | none =>
      .ok (generate_fallback job_title company_name company_overview years level
            location employment_type)
    | some parsed =>
      match hasAllKeys parsed with
      | .error e => .error e
      | .ok false =>
        .ok (generate_fallback job_title company_name company_overview years level
              location employment_type)
      | .ok true =>
        buildResult job_title years level company_name company_overview
          location employment_type parsed

/-- Lines 331-335: `except SecurityError: raise` then
`except Exception: raise SecurityError(generic)` — a SecurityError passes
through unchanged, every other exception (including the `ValueError` from
negative years) becomes the generic SecurityError. -/
def wrapOuter {α : Type} : Except Exc α → Except Exc α
  | .ok v => .ok v
  | .error (.securityError m) => .error (.securityError m)
  | .error _ =>
    .error (.securityError "An error occurred while generating the job description")

/-- `generate_job_description_async`: classify, build the prompt (no
failure mode, result only sent upstream), make the call, check and
extract the completion text, process it; all under the outer
except pair. -/
def generate_job_description_async (job_title : String) (years : Int)
    (company_name company_overview : String) (skills : List String)
    (location employment_type : Option String) (call : CallResult) :
    Except Exc GeneratedDescription :=
  wrapOuter (
    match categorize_experience years with
    | .error e => .error e
    | .ok level =>
      let _prompt := create_prompt job_title years level company_name
        company_overview skills location employment_type
      match make_api_call call with
      | .error e => .error e
      | .ok response =>
        match extract_content response with
        | .error e => .error e
        | .ok content =>
          process_content job_title years level company_name company_overview
            location employment_type content)

/-! ## Claim theorems about the Orchestrator -/

/-- C1 (what the code actually does): on negative years the Input
Classifier raises a builtin `ValueError` — not the imported-but-unused
`ValidationError` — and the Orchestrator's `except Exception` wraps it
into the generic SecurityError.  No ValidationError-class condition
propagates out of generate. -/
theorem generate_negative_years_wrapped :
    categorize_experience (-1) =
      .error (.valueError "Years of experience cannot be negative") ∧
    generate_job_description_async "Engineer" (-1) "Acme" "We build things"
      [ "Go" ] none none (.success (Json.obj [])) =
      .error (.securityError "An error occurred while generating the job description") :=
  ⟨rfl, rfl⟩

/-- C3 (what the code actually does): every outbound-call failure is a
terminal SecurityError with the mapped message — timeout, 401, 429, other
statuses, connection failure — but a non-JSON content type does NOT
surface "Invalid response content type": the `SecurityError` raised for
it inside the try block is caught by that block's own `except Exception`
and replaced with the generic "API request failed". -/
theorem generate_call_failure_taxonomy :
    generate_job_description_async "Backend Engineer" 2 "Acme" "We build" [ "Go" ]
      none none .timeout =
      .error (.securityError "Request timeout - please try again") ∧
    generate_job_description_async "Backend Engineer" 2 "Acme" "We build" [ "Go" ]
      none none (.httpError 401) =
      .error (.securityError "API authentication failed") ∧
    generate_job_description_async "Backend Engineer" 2 "Acme" "We build" [ "Go" ]
      none none (.httpError 429) =
      .error (.securityError "API rate limit exceeded - please wait before retrying") ∧
    generate_job_description_async "Backend Engineer" 2 "Acme" "We build" [ "Go" ]
      none none (.httpError 500) =
      .error (.securityError "API request failed") ∧
    generate_job_description_async "Backend Engineer" 2 "Acme" "We build" [ "Go" ]
      none none .connectError =
      .error (.securityError "Unable to connect to API service") ∧
    generate_job_description_async "Backend Engineer" 2 "Acme" "We build" [ "Go" ]
      none none .badContentType =
      .error (.securityError "API request failed") :=
  ⟨rfl, rfl, rfl, rfl, rfl, rfl⟩

/-- C10: a 2xx JSON object body whose `choices` entry is missing or falsy
makes generate raise `SecurityError("Invalid API response structure")` —
passed through unchanged by the outer `except SecurityError: raise` — and
not fall back. -/
theorem generate_falsy_choices_security_error
    (job_title : String) (years : Int) (level : String)
    (company_name company_overview : String) (skills : List String)
    (location employment_type : Option String) (fs : List (String × Json))
    (hyears : categorize_experience years = .ok level)
    (hchoices : dictGet? fs "choices" = none ∨
      ∃ v, dictGet? fs "choices" = some v ∧ jsonFalsy v = true) :
    generate_job_description_async job_title years company_name company_overview
      skills location employment_type (.success (.obj fs)) =
      .error (.securityError "Invalid API response structure") := by
  have hcall : make_api_call (.success (.obj fs)) = .ok (.obj fs) := rfl
  have hex : extract_content (.obj fs) =
      .error (.securityError "Invalid API response structure") := by
    rcases hchoices with h | ⟨v, hv, hfalsy⟩
    · simp only [extract_content, choicesField, h]
    · simp [extract_content, choicesField, hv, hfalsy]
  simp only [generate_job_description_async, hyears, hcall, hex, wrapOuter]

theorem generate_falsy_choices_security_error_witness :
    generate_job_description_async "T" 1 "C" "O" [] none none
      (.success (.obj [ ("choices", .arr []) ])) =
      .error (.securityError "Invalid API response structure") :=
  generate_falsy_choices_security_error "T" 1 "Entry" "C" "O" [] none none
    [ ("choices", .arr []) ] rfl (Or.inr ⟨.arr [], rfl, rfl⟩)

/-- `process_content` returns exactly the fallback when a brace is
missing, the slice does not parse, or a required key is absent. -/
theorem process_content_fallback (job_title : String) (years : Int)
    (level : String) (company_name company_overview : String)
    (location employment_type : Option String) (content : String)
    (hmal : braceSlice content = none ∨
      (∃ js, braceSlice content = some js ∧
        (loads js = none ∨
          ∃ parsed, loads js = some parsed ∧ hasAllKeys parsed = .ok false))) :
    process_content job_title years level company_name company_overview
      location employment_type content =
      .ok (generate_fallback job_title company_name company_overview years level
            location employment_type) := by
  rcases hmal with h | ⟨js, hjs, h⟩
  · simp only [process_content, h]
  · rcases h with h | ⟨parsed, hp, hk⟩
    · simp only [process_content, hjs, h]
    · simp only [process_content, hjs, hp, hk]

/-- C2: whenever the completion text of a well-formed 2xx response has no
brace pair, or the brace slice fails to parse as JSON, or the parsed value
lacks one of the four required keys, generate returns exactly the Fallback
Generator's output for the same inputs — a success, not an error. -/
theorem generate_malformed_response_falls_back
    (job_title : String) (years : Int) (level : String)
    (company_name company_overview : String) (skills : List String)
    (location employment_type : Option String) (body : Json) (content : String)
    (hyears : categorize_experience years = .ok level)
    (hextract : extract_content body = .ok content)
    (hmal : braceSlice content = none ∨
      (∃ js, braceSlice content = some js ∧
        (loads js = none ∨
          ∃ parsed, loads js = some parsed ∧ hasAllKeys parsed = .ok false))) :
    generate_job_description_async job_title years company_name company_overview
      skills location employment_type (.success body) =
      .ok (generate_fallback job_title company_name company_overview years level
            location employment_type) := by
  have hcall : make_api_call (.success body) = .ok body := rfl
  simp only [generate_job_description_async, hyears, hcall, hextract,
    process_content_fallback job_title years level company_name company_overview
      location employment_type content hmal, wrapOuter]

theorem generate_malformed_response_falls_back_witness :
    generate_job_description_async "Writer" 2 "Beta" "We write" [ "SQL" ] none none
      (.success (.obj [ ("choices",
        .arr [ .obj [ ("message", .obj [ ("content", .str "no json at all") ]) ] ]) ])) =
      .ok (generate_fallback "Writer" "Beta" "We write" 2 "Entry" none none) :=
  generate_malformed_response_falls_back "Writer" 2 "Entry" "Beta" "We write"
    [ "SQL" ] none none _ "no json at all" rfl rfl (Or.inl rfl)

/-- C6: for a parsed response whose four array fields are present, the
result keeps exactly the first 7 responsibilities and qualifications and
the first 10 required and optional skills, in original order, each passed
through the Sanitizer; the deterministic fields (company name, overview,
title, tier, years, truthy location/employment type) are attached
verbatim, unsanitized. -/
theorem generate_success_truncates_and_sanitizes
    (job_title : String) (years : Int) (level : String)
    (company_name company_overview : String) (skills : List String)
    (location employment_type : Option String) (body : Json)
    (content js : String) (fs : List (String × Json)) (rl ql rsl osl : List Json)
    (hyears : categorize_experience years = .ok level)
    (hextract : extract_content body = .ok content)
    (hslice : braceSlice content = some js)
    (hparse : loads js = some (.obj fs))
    (hkeys : hasAllKeys (.obj fs) = .ok true)
    (hr : dictGet? fs "responsibilities" = some (.arr rl))
    (hq : dictGet? fs "qualifications" = some (.arr ql))
    (hrs : dictGet? fs "required_skills" = some (.arr rsl))
    (hos : dictGet? fs "optional_skills" = some (.arr osl)) :
    generate_job_description_async job_title years company_name company_overview
      skills location employment_type (.success body) =
      .ok ⟨company_name, company_overview, job_title, level, years,
           (rl.take 7).map sanitizeItem, (ql.take 7).map sanitizeItem,
           (rsl.take 10).map sanitizeItem, (osl.take 10).map sanitizeItem,
           attachOpt location, attachOpt employment_type⟩ := by
  have hcall : make_api_call (.success body) = .ok body := rfl
  have hpc : process_content job_title years level company_name company_overview
      location employment_type content =
      .ok ⟨company_name, company_overview, job_title, level, years,
           (rl.take 7).map sanitizeItem, (ql.take 7).map sanitizeItem,
           (rsl.take 10).map sanitizeItem, (osl.take 10).map sanitizeItem,
           attachOpt location, attachOpt employment_type⟩ := by
    simp only [process_content, hslice, hparse, hkeys, buildResult, hr, hq, hrs, hos,
      Option.getD_some, pySlice]
  simp only [generate_job_description_async, hyears, hcall, hextract, hpc, wrapOuter]

def c6Rl : List Json :=
  [ .str "r1", .str "r2", .str "r3", .str "r4", .str "r5",
    .str "r6", .str "r7", .str "r8", .str "r9", .str "r10" ]

def c6Fs : List (String × Json) :=
  [ ("responsibilities", .arr c6Rl),
    ("qualifications", .arr [ .str "q1" ]),
    ("required_skills", .arr [ .str "s1" ]),
    ("optional_skills", .arr [ .str "o1" ]) ]

def c6Content : String :=
  "\x7b\"responsibilities\":[\"r1\",\"r2\",\"r3\",\"r4\",\"r5\",\"r6\",\"r7\",\"r8\",\"r9\",\"r10\"],\"qualifications\":[\"q1\"],\"required_skills\":[\"s1\"],\"optional_skills\":[\"o1\"]\x7d"

def c6Body : Json :=
  .obj [ ("choices", .arr [ .obj [ ("message", .obj [ ("content", .str c6Content) ]) ] ]) ]

set_option maxRecDepth 8000 in
set_option maxHeartbeats 2000000 in
theorem generate_success_truncates_and_sanitizes_witness :
    generate_job_description_async "Designer" 6 "Gamma" "We ship" [] none none
      (.success c6Body) =
      .ok ⟨ "Gamma", "We ship", "Designer", "Mid", 6,
            [ "r1", "r2", "r3", "r4", "r5", "r6", "r7" ],
            [ "q1" ], [ "s1" ], [ "o1" ], none, none ⟩ :=
  generate_success_truncates_and_sanitizes "Designer" 6 "Mid" "Gamma" "We ship"
    [] none none c6Body c6Content c6Content c6Fs c6Rl
    [ .str "q1" ] [ .str "s1" ] [ .str "o1" ]
    rfl rfl rfl rfl rfl rfl rfl rfl rfl

/-- The outer except pair returns ok only when its body did. -/
theorem wrapOuter_ok {α : Type} (x : Except Exc α) (v : α)
    (h : wrapOuter x = .ok v) : x = .ok v := by
  match x with
  | .ok a => simpa [wrapOuter] using h
  | .error e => cases e <;> simp [wrapOuter] at h

/-- Zeta-reduced unfolding of generate: the prompt construction has no
failure mode and does not influence the result value. -/
theorem generate_unfold (job_title : String) (years : Int)
    (company_name company_overview : String) (skills : List String)
    (location employment_type : Option String) (call : CallResult) :
    generate_job_description_async job_title years company_name
      company_overview skills location employment_type call =
    wrapOuter (
      match categorize_experience years with
      | .error e => .error e
      | .ok level =>
        match make_api_call call with
        | .error e => .error e
        | .ok response =>
          match extract_content response with
          | .error e => .error e
          | .ok content =>
            process_content job_title years level company_name company_overview
              location employment_type content) := rfl

/-- The fallback result respects all four length bounds (its lists are
fixed, of lengths 5, 5, 3, 3). -/
theorem fallback_bounds (job_title company_name company_overview : String)
    (years : Int) (level : String) (location employment_type : Option String) :
    (generate_fallback job_title company_name company_overview years level
      location employment_type).responsibilities.length ≤ 7 ∧
    (generate_fallback job_title company_name company_overview years level
      location employment_type).qualifications.length ≤ 7 ∧
    (generate_fallback job_title company_name company_overview years level
      location employment_type).required_skills.length ≤ 10 ∧
    (generate_fallback job_title company_name company_overview years level
      location employment_type).optional_skills.length ≤ 10 := by
  refine ⟨?_, ?_, ?_, ?_⟩ <;> simp [generate_fallback]

/-- A successful Python slice `x[:n]` has at most `n` elements. -/
theorem pySlice_length (n : Nat) (j : Json) (l : List Json)
    (h : pySlice n j = .ok l) : l.length ≤ n := by
  cases j with
  | arr xs =>
    simp only [pySlice, Except.ok.injEq] at h
    subst h
    rw [List.length_take]
    omega
  | str s =>
    simp only [pySlice, Except.ok.injEq] at h
    subst h
    rw [List.length_map, List.length_take]
    omega
  | null => simp [pySlice] at h
  | bool b => simp [pySlice] at h
  | num x => simp [pySlice] at h
  | obj fs => simp [pySlice] at h

/-- A successfully built result from a parsed response respects the
bounds: its list fields come from `[:7]` / `[:10]` slices. -/
theorem buildResult_bounds (job_title : String) (years : Int) (level : String)
    (company_name company_overview : String)
    (location employment_type : Option String) (parsed : Json)
    (d : GeneratedDescription)
    (h : buildResult job_title years level company_name company_overview
      location employment_type parsed = .ok d) :
    d.responsibilities.length ≤ 7 ∧ d.qualifications.length ≤ 7 ∧
    d.required_skills.length ≤ 10 ∧ d.optional_skills.length ≤ 10 := by
  cases parsed with
  | obj fs =>
    simp only [buildResult] at h
    cases hr : pySlice 7 ((dictGet? fs "responsibilities").getD .null) with
    | error e => simp [hr] at h
    | ok rl =>
    simp only [hr] at h
    cases hq : pySlice 7 ((dictGet? fs "qualifications").getD .null) with
    | error e => simp [hq] at h
    | ok ql =>
    simp only [hq] at h
    cases hrs : pySlice 10 ((dictGet? fs "required_skills").getD .null) with
    | error e => simp [hrs] at h
    | ok rsl =>
    simp only [hrs] at h
    cases hos : pySlice 10 ((dictGet? fs "optional_skills").getD .null) with
    | error e => simp [hos] at h
    | ok osl =>
    simp only [hos] at h
    injection h with h2
    subst h2
    refine ⟨?_, ?_, ?_, ?_⟩ <;> simp only [List.length_map]
    · exact pySlice_length _ _ _ hr
    · exact pySlice_length _ _ _ hq
    · exact pySlice_length _ _ _ hrs
    · exact pySlice_length _ _ _ hos
  | null => simp [buildResult] at h
  | bool b => simp [buildResult] at h
  | num x => simp [buildResult] at h
  | str s => simp [buildResult] at h
  | arr xs => simp [buildResult] at h

/-- Whatever `process_content` successfully returns respects the
bounds. -/
theorem process_content_bounds (job_title : String) (years : Int)
    (level : String) (company_name company_overview : String)
    (location employment_type : Option String) (content : String)
    (d : GeneratedDescription)
    (h : process_content job_title years level company_name company_overview
      location employment_type content = .ok d) :
    d.responsibilities.length ≤ 7 ∧ d.qualifications.length ≤ 7 ∧
    d.required_skills.length ≤ 10 ∧ d.optional_skills.length ≤ 10 := by
  simp only [process_content] at h
  split at h
  · injection h with h2
    subst h2
    exact fallback_bounds _ _ _ _ _ _ _
  · split at h
    · injection h with h2
      subst h2
      exact fallback_bounds _ _ _ _ _ _ _
    · split at h
      · exact absurd h (by simp)
      · injection h with h2
        subst h2
        exact fallback_bounds _ _ _ _ _ _ _
      · exact buildResult_bounds _ _ _ _ _ _ _ _ _ h

/-- C9: every GeneratedDescription that generate returns — whether built
from a parsed response or from the Fallback Generator — has at most 7
responsibilities, 7 qualifications, 10 required skills and 10 optional
skills (all four fields are present by construction of the record). -/
theorem generate_result_bounds (job_title : String) (years : Int)
    (company_name company_overview : String) (skills : List String)
    (location employment_type : Option String) (call : CallResult)
    (d : GeneratedDescription)
    (h : generate_job_description_async job_title years company_name
      company_overview skills location employment_type call = .ok d) :
    d.responsibilities.length ≤ 7 ∧ d.qualifications.length ≤ 7 ∧
    d.required_skills.length ≤ 10 ∧ d.optional_skills.length ≤ 10 := by
  rw [generate_unfold] at h
  have h2 := wrapOuter_ok _ _ h
  split at h2
  · exact absurd h2 (by simp)
  · split at h2
    · exact absurd h2 (by simp)
    · split at h2
      · exact absurd h2 (by simp)
      · exact process_content_bounds _ _ _ _ _ _ _ _ _ h2

theorem generate_result_bounds_witness :
    (generate_job_description_async "Analyst" 9 "Delta" "We analyze" [] none none
      (.success (.obj [ ("choices", .arr [ .obj [ ("message",
        .obj [ ("content", .str "nothing structured") ]) ] ]) ])) =
      .ok (generate_fallback "Analyst" "Delta" "We analyze" 9 "Senior" none none)) ∧
    ((generate_fallback "Analyst" "Delta" "We analyze" 9 "Senior"
        none none).responsibilities.length ≤ 7 ∧
      (generate_fallback "Analyst" "Delta" "We analyze" 9 "Senior"
        none none).qualifications.length ≤ 7 ∧
      (generate_fallback "Analyst" "Delta" "We analyze" 9 "Senior"
        none none).required_skills.length ≤ 10 ∧
      (generate_fallback "Analyst" "Delta" "We analyze" 9 "Senior"
        none none).optional_skills.length ≤ 10) :=
  ⟨rfl,
   generate_result_bounds "Analyst" 9 "Delta" "We analyze" [] none none
     (.success (.obj [ ("choices", .arr [ .obj [ ("message",
       .obj [ ("content", .str "nothing structured") ]) ] ]) ]))
     (generate_fallback "Analyst" "Delta" "We analyze" 9 "Senior" none none) rfl⟩
